import Mathlib

/-!
Shallow embedding of pypdf's text-extraction core
(src/pypdf/_text_extraction/__init__.py) and proofs about it.

Modelling conventions:
* Python floats are modelled as exact rationals; float literals 1e-6, 0.8,
  0.3 become the rationals 1/1000000, 8/10, 3/10, and math.sqrt becomes
  Rat.sqrt.
* Byte strings are lists of byte values (List Nat).
* Exceptions become Except; an exception payload records the observable
  state (buffers, visitor calls) at the moment of the raise.
* The visitor callback (visitor_text) is modelled by a Bool flag telling
  whether a visitor was supplied, together with an accumulated list of the
  calls (arguments) the function makes to it, in order.
* The process-wide globals CUSTOM_RTL_MIN / CUSTOM_RTL_MAX /
  CUSTOM_RTL_SPECIAL_CHARS are threaded explicitly as an RtlConfig value;
  set_custom_rtl becomes a pure state transformer on RtlConfig.
* bytes.decode for a named codec is an external Python facility, so
  handle_tj is parameterised by a decoder oracle (String -> List Nat ->
  Option String); Option.none models a decode exception.  The default
  single-byte utf-8 decode used for unmapped bytes of a dict encoding is
  modelled exactly (ASCII succeeds, bytes >= 0x80 fail).
-/

deriving instance DecidableEq for Except

/-- Affine matrix (a, b, c, d, e, f), source line 19. -/
structure Mat where
  a : ℚ
  b : ℚ
  c : ℚ
  d : ℚ
  e : ℚ
  f : ℚ
deriving DecidableEq, Repr

/-- Matrix composition, source lines 21-29. -/
def mult (m n : Mat) : Mat :=
  { a := m.a * n.a + m.b * n.c
    b := m.a * n.b + m.b * n.d
    c := m.c * n.a + m.d * n.c
    d := m.c * n.b + m.d * n.d
    e := m.e * n.a + m.f * n.c + n.e
    f := m.e * n.b + m.f * n.d + n.f }

/-- Point transformation, source lines 31-34. -/
def xy_mult (xy : ℚ × ℚ) (mat : Mat) : ℚ × ℚ :=
  (mat.a * xy.1 + mat.c * xy.2 + mat.e, mat.b * xy.1 + mat.d * xy.2 + mat.f)

/-- Orientation classifier, source lines 158-166. -/
def orient (m : Mat) : Nat :=
  if m.d > 1 / 1000000 then 0
  else if m.d < -(1 / 1000000) then 180
  else if m.b > 0 then 90
  else 270

/-- Decoding strategy of a character map: a named codec (str) or a sparse
byte-to-string table (dict[int, str]), source line 48. -/
inductive PyEncoding where
  | named (s : String)
  | table (t : List (Nat × String))
deriving DecidableEq, Repr

/-- Character map, source lines 41-62. -/
structure CharMap where
  encoding : PyEncoding
  map_dict : List (Char × String)
  font_res_name : String
  font_dict : Option String
deriving DecidableEq, Repr

/-- Text state, source lines 65-110. -/
structure TextState where
  cm_matrix : Mat
  tm_matrix : Mat
  cmap : CharMap
  font_size : ℚ
  char_scale : ℚ
  space_scale : ℚ
  _space_width : ℚ
  text_leading : ℚ
  text_offset : ℚ
  rtl_dir : Bool
deriving DecidableEq, Repr

/-- space_width property, source lines 94-96. -/
def TextState.space_width (st : TextState) : ℚ := st._space_width / 1000

/-- Effective scale k = sqrt(abs(a*d) + abs(b*c)) of a composed matrix,
source lines 103 and 196. -/
def effScale (m : Mat) : ℚ := Rat.sqrt (|m.a * m.d| + |m.b * m.c|)

/-- Glyph origin, source lines 98-106. -/
def TextState.pos (st : TextState) : ℚ × ℚ :=
  let p := xy_mult (st.tm_matrix.e, st.tm_matrix.f) st.cm_matrix
  if st.text_offset ≠ 0 then
    let m := mult st.tm_matrix st.cm_matrix
    (p.1 + st.text_offset * (st.font_size * effScale m), p.2)
  else p

/-- The process-wide globals CUSTOM_RTL_MIN, CUSTOM_RTL_MAX and
CUSTOM_RTL_SPECIAL_CHARS, source lines 13-15, threaded as a value. -/
structure RtlConfig where
  custom_rtl_min : Int
  custom_rtl_max : Int
  custom_rtl_special_chars : List Int
deriving DecidableEq, Repr

/-- Initial values of the globals, source lines 13-15. -/
def initRtlConfig : RtlConfig := ⟨-1, -1, []⟩

/-- Python ord on a string: the code point of its only character, failure
for any other length. -/
def pyOrd (s : String) : Option Int :=
  match s.data with
  | [c] => some (c.toNat : Int)
  | _ => none

/-- Argument of set_custom_rtl that may be an int, a str, or omitted. -/
inductive IntStrArg where
  | none
  | int (i : Int)
  | str (s : String)
deriving DecidableEq, Repr

/-- specials argument of set_custom_rtl: omitted, a str, or a list of
ints. -/
inductive SpecialsArg where
  | none
  | str (s : String)
  | ints (l : List Int)
deriving DecidableEq, Repr

/-- Resolution of one min/max argument of set_custom_rtl against the
stored value, source lines 143-150: int is stored as given, str through
ord, omitted keeps the stored value. -/
def resolveIntStr (cur : Int) : IntStrArg → Except Unit Int
  | .none => .ok cur
  | .int i => .ok i
  | .str s =>
    match pyOrd s with
    | some v => .ok v
    | Option.none => .error ()

/-- set_custom_rtl, source lines 113-155, as a pure transformer on the
threaded RtlConfig; returns the new configuration and the returned
triple. -/
def set_custom_rtl (_min _max : IntStrArg) (specials : SpecialsArg)
    (cfg : RtlConfig) : Except Unit (RtlConfig × (Int × Int × List Int)) := do
  let mn ← resolveIntStr cfg.custom_rtl_min _min
  let mx ← resolveIntStr cfg.custom_rtl_max _max
  let sp :=
    match specials with
    | .none => cfg.custom_rtl_special_chars
    | .str s => s.data.map (fun c => (c.toNat : Int))
    | .ints l => l
  pure (⟨mn, mx, sp⟩, (mn, mx, sp))

/-- One visitor_text call: the text argument and the TextState snapshot
(st.copy()) passed to it. -/
abbrev Visit := String × TextState

/-- Last character of a string, used to model Python s[-1] (which raises
IndexError on an empty string). -/
def lastChar (s : String) : Option Char := s.data.getLast?

/-- Branch body of crlf_space_check, source lines 201-243: the
if/elif chain on the orientation bucket, acting on the computed deltas,
effective glyph height f and space width.  The try/except around this
body is modelled by the explicit buffer-non-emptiness guards: the only
statement in it that can raise is the indexing (output + text)[-1], and a
raise there aborts the branch before any mutation, which the guarded
no-op reproduces.  Result: new pending text, new output, visitor calls
made. -/
def crlf_branch (orientation : Nat) (delta_x delta_y f sw : ℚ)
    (text output : String) (st : TextState) (hasVisitor : Bool) :
    String × String × List Visit :=
  let buf := output ++ text
  let flushed : String × String × List Visit :=
    ("", output ++ (text ++ "\n"),
      if hasVisitor then [(text ++ "\n", st)] else [])
  let keep : String × String × List Visit := (text, output, [])
  let spaced : String × String × List Visit := (text ++ " ", output, [])
  if orientation = 0 then
    if delta_y < -(8 / 10) * f then
      if buf ≠ "" ∧ lastChar buf ≠ some '\n' then flushed else keep
    else if |delta_y| < f * (3 / 10) ∧ |delta_x| > sw * f * 15
        ∧ buf ≠ "" ∧ lastChar buf ≠ some ' ' then spaced
    else keep
  else if orientation = 180 then
    if delta_y > (8 / 10) * f then
      if buf ≠ "" ∧ lastChar buf ≠ some '\n' then flushed else keep
    else if |delta_y| < f * (3 / 10) ∧ |delta_x| > sw * f * 15
        ∧ buf ≠ "" ∧ lastChar buf ≠ some ' ' then spaced
    else keep
  else if orientation = 90 then
    if delta_x > (8 / 10) * f then
      if buf ≠ "" ∧ lastChar buf ≠ some '\n' then flushed else keep
    else if |delta_x| < f * (3 / 10) ∧ |delta_y| > sw * f * 15
        ∧ buf ≠ "" ∧ lastChar buf ≠ some ' ' then spaced
    else keep
  else if orientation = 270 then
    if delta_x < -(8 / 10) * f then
      if buf ≠ "" ∧ lastChar buf ≠ some '\n' then flushed else keep
    else if |delta_x| < f * (3 / 10) ∧ |delta_y| > sw * f * 15
        ∧ buf ≠ "" ∧ lastChar buf ≠ some ' ' then spaced
    else keep
  else keep

/-- crlf_space_check, source lines 169-246.  The OrientationNotFoundError
raise is the error case; its payload records pending text, output and the
visitor calls made up to the raise (none).  The ok payload is the returned
(text, output, cm_prev, tm_prev) plus the visitor calls made. -/
def crlf_space_check (text : String) (st : TextState) (cmtm_prev : Mat × Mat)
    (orientations : List Nat) (output : String)
    (processing_TJ_op hasVisitor : Bool) :
    Except (String × String × List Visit) (String × String × Mat × Mat × List Visit) :=
  let m_prev := mult cmtm_prev.2 cmtm_prev.1
  let m := mult st.tm_matrix st.cm_matrix
  let orientation := orient m
  let delta_x := m.e - m_prev.e
  let delta_y := m.f - m_prev.f
  let k := effScale m
  let f := st.font_size * k
  if orientation ∉ orientations then
    .error (text, output, [])
  else
    let res := crlf_branch orientation delta_x delta_y f st.space_width
      text output st hasVisitor
    .ok (res.1, res.2.1, st.cm_matrix, st.tm_matrix, res.2.2)

/-- A text-showing operand: a native (already decoded) string or a raw
byte string, source line 251. -/
inductive Operand where
  | str (s : String)
  | bytes (bs : List Nat)
deriving DecidableEq, Repr

/-- External decoder oracle modelling Python bytes.decode(name,
"surrogatepass"); none models a decode exception. -/
abbrev Decoder := String → List Nat → Option String

/-- Accumulator of the decode/bidi loop: pending text, output, text state
and visitor calls so far. -/
abbrev RunAcc := String × String × TextState × List Visit

/-- push_text of handle_tj, source lines 259-266: append pending text to
output, notify the visitor with the text and a state snapshot, then (for
an array-form operator) advance text_offset by the flushed length, and
clear pending text. -/
def tj_push_text (processing_TJ_op hasVisitor : Bool) (text output : String)
    (st : TextState) (visits : List Visit) : RunAcc :=
  let output1 := output ++ text
  let visits1 := if hasVisitor then visits ++ [(text, st)] else visits
  let st1 :=
    if processing_TJ_op then
      { st with text_offset := st.text_offset + (text.length : ℚ) }
    else st
  ("", output1, st1, visits1)

/-- Decode of a single unmapped byte in the dict-encoding branch,
source line 293: bytes((x,)).decode() is a utf-8 decode, which succeeds
exactly on ASCII. -/
def decodeSingleByte (x : Nat) : Option String :=
  if x < 128 then some (String.mk [Char.ofNat x]) else none

/-- Dict-encoding decode, source lines 291-294: per-byte table lookup with
single-byte fallback, joined; any failing byte aborts the whole decode. -/
def tableDecode (tbl : List (Nat × String)) (bs : List Nat) : Option String :=
  match bs.mapM (fun x =>
      match tbl.lookup x with
      | some s => some s
      | none => decodeSingleByte x) with
  | some parts => some (String.join parts)
  | none => none

/-- The paired alternate of a named encoding, source line 288. -/
def altEncoding (enc : String) : String :=
  if enc = "charmap" then "utf-16-be" else "charmap"

/-- Named-encoding decode with fallback, source lines 280-290: try the
named codec, on failure retry with the paired alternate. -/
def namedDecode (dec : Decoder) (enc : String) (tt : List Nat) : Option String :=
  match dec enc tt with
  | some t => some t
  | none => dec (altEncoding enc) tt

/-- Substitution-table application to one decoded character, source
line 296: map_dict lookup, the character itself when unmapped. -/
def subst (md : List (Char × String)) (c : Char) : String :=
  match md.lookup c with
  | some s => s
  | none => String.mk [c]

/-- One iteration of the classification/accumulation loop of handle_tj,
source lines 296-328, on a substituted unit x. -/
def bidi_step (cfg : RtlConfig) (processing_TJ_op hasVisitor : Bool)
    (acc : RunAcc) (x : String) : RunAcc :=
  let (text, output, st, visits) := acc
  let xx : Int :=
    match x.data with
    | [c] => (c.toNat : Int)
    | _ => 1
  if xx ≤ 0x2F ∨ (0x3A ≤ xx ∧ xx ≤ 0x40) ∨ (0x2000 ≤ xx ∧ xx ≤ 0x206F)
      ∨ (0x20A0 ≤ xx ∧ xx ≤ 0x21FF) ∨ xx ∈ cfg.custom_rtl_special_chars then
    (if st.rtl_dir then x ++ text else text ++ x, output, st, visits)
  else if (0x0590 ≤ xx ∧ xx ≤ 0x08FF) ∨ (0xFB1D ≤ xx ∧ xx ≤ 0xFDFF)
      ∨ (0xFE70 ≤ xx ∧ xx ≤ 0xFEFF)
      ∨ (cfg.custom_rtl_min ≤ xx ∧ xx ≤ cfg.custom_rtl_max) then
    if st.rtl_dir then (x ++ text, output, st, visits)
    else
      let st1 := { st with rtl_dir := true }
      let r := tj_push_text processing_TJ_op hasVisitor text output st1 visits
      (x ++ r.1, r.2.1, r.2.2.1, r.2.2.2)
  else
    if st.rtl_dir then
      let st1 := { st with rtl_dir := false }
      let r := tj_push_text processing_TJ_op hasVisitor text output st1 visits
      (r.1 ++ x, r.2.1, r.2.2.1, r.2.2.2)
    else (text ++ x, output, st, visits)

/-- handle_tj, source lines 249-329.  Result: updated pending text,
output, text state and visitor calls; the error case models an uncaught
decode exception (both named decodes failing, or an unmapped non-ASCII
byte under a dict encoding). -/
def handle_tj (dec : Decoder) (cfg : RtlConfig) (text : String)
    (operands : List Operand) (st : TextState) (orientations : List Nat)
    (output : String) (processing_TJ_op hasVisitor : Bool) :
    Except Unit RunAcc :=
  let m := mult st.tm_matrix st.cm_matrix
  let orientation := orient m
  match operands with
  | [] => .ok (text, output, st, [])
  | op :: _ =>
    if orientation ∈ orientations then
      match op with
      | .str s => .ok (text ++ s, output, st, [])
      | .bytes tt =>
        let dres : Option String :=
          match st.cmap.encoding with
          | .named enc => namedDecode dec enc tt
          | .table tbl => tableDecode tbl tt
        match dres with
        | none => .error ()
        | some t =>
          .ok ((t.data.map (subst st.cmap.map_dict)).foldl
            (bidi_step cfg processing_TJ_op hasVisitor) (text, output, st, []))
    else .ok (text, output, st, [])


/-! Concrete fixtures used by witnesses and counterexamples. -/

/-- Identity matrix. -/
def idMat : Mat := ⟨1, 0, 0, 1, 0, 0⟩

/-- Translation-only matrix. -/
def transMat (e f : ℚ) : Mat := ⟨1, 0, 0, 1, e, f⟩

/-- Table character map decoding 0x41/0xD0/0x42 to A, HEBREW LETTER ALEF
and B, with an empty substitution table. -/
def cmapT : CharMap :=
  ⟨.table [(0x41, "A"), (0xD0, String.mk [Char.ofNat 0x05D0]), (0x42, "B")],
    [], "F1", none⟩

/-- Table character map with a substitution entry replacing A by B. -/
def cmapS : CharMap := ⟨.table [(0x41, "A")], [('A', "B")], "F2", none⟩

/-- Character map with the named single-byte legacy encoding. -/
def cmapN : CharMap := ⟨.named "charmap", [], "F3", none⟩

/-- Base text state: identity matrices, cmapT, font size 12, direction
flag left-to-right. -/
def stT : TextState := ⟨idMat, idMat, cmapT, 12, 1, 1, 500, 0, 0, false⟩

/-- Text state carrying the substitution character map. -/
def stS : TextState := { stT with cmap := cmapS }

/-- Text state carrying the named-encoding character map. -/
def stN : TextState := { stT with cmap := cmapN }

/-- Text state with a negative font size (legal in PDF), exercising the
sign-dependence of the line-break threshold. -/
def stNeg : TextState := { stT with font_size := -1 }

/-- Decoder oracle that always fails. -/
def dec0 : Decoder := fun _ _ => none

/-- Decoder oracle succeeding only for the 16-bit big-endian codec. -/
def decBE : Decoder := fun name _ => if name = "utf-16-be" then some "A" else none

/-- Modelled from the spec: the legacy single-byte document encoding used
to normalize native strings (encode_pdfdocencoding, imported from
pypdf.generic, which is not under src/).  It encodes each character to one
byte; on the ASCII range — the only range this development evaluates it
on — it is the identity on code points. -/
def encode_pdfdocencoding (s : String) : List Nat := s.data.map Char.toNat

/-- Advance-axis delta of the line/space heuristic (spec section 4.3
step 4): the y delta for the 0/180 orientation buckets, the x delta for
90/270. -/
def advanceAxisDelta (o : Nat) (dx dy : ℚ) : ℚ :=
  if o = 0 ∨ o = 180 then dy else dx

/-- Cross-axis delta of the line/space heuristic (spec section 4.3
step 4): the other axis. -/
def crossAxisDelta (o : Nat) (dx dy : ℚ) : ℚ :=
  if o = 0 ∨ o = 180 then dx else dy

/-- Directional line-break delta test of crlf_space_check: the
advance-axis delta moves opposite reading direction by more than
(8/10)*f, per orientation bucket. -/
def flushDelta (o : Nat) (dx dy f : ℚ) : Prop :=
  (o = 0 ∧ dy < -(8 / 10) * f) ∨ (o = 180 ∧ dy > (8 / 10) * f)
    ∨ (o = 90 ∧ dx > (8 / 10) * f) ∨ (o = 270 ∧ dx < -(8 / 10) * f)

/-- Space-insertion test of crlf_space_check: near-zero advance-axis
delta, large cross-axis delta, non-empty buffers not ending in a
space. -/
def spaceCondition (o : Nat) (dx dy f sw : ℚ) (buf : String) : Prop :=
  |advanceAxisDelta o dx dy| < f * (3 / 10)
    ∧ |crossAxisDelta o dx dy| > sw * f * 15
    ∧ buf ≠ "" ∧ lastChar buf ≠ some ' '

/-- The composed matrix of stT is the identity, so its orientation
bucket is 0. -/
theorem orient_stT : orient (mult stT.tm_matrix stT.cm_matrix) = 0 := by
  simp only [orient, mult, stT, idMat]
  norm_num

/-- The effective scale of the composed identity matrix is 1. -/
theorem effScale_id : effScale (mult idMat idMat) = 1 := by
  simp only [effScale, mult, idMat]
  norm_num

/-- crlf_branch specialized to bucket 0. -/
theorem crlf_branch_0 (delta_x delta_y f sw : ℚ) (text output : String)
    (st : TextState) (hv : Bool) :
    crlf_branch 0 delta_x delta_y f sw text output st hv
      = if delta_y < -(8 / 10) * f then
          if output ++ text ≠ "" ∧ lastChar (output ++ text) ≠ some '\n' then
            ("", output ++ (text ++ "\n"),
              if hv then [(text ++ "\n", st)] else [])
          else (text, output, [])
        else if |delta_y| < f * (3 / 10) ∧ |delta_x| > sw * f * 15
            ∧ output ++ text ≠ "" ∧ lastChar (output ++ text) ≠ some ' ' then
          (text ++ " ", output, [])
        else (text, output, []) := rfl

/-- crlf_branch specialized to bucket 180. -/
theorem crlf_branch_180 (delta_x delta_y f sw : ℚ) (text output : String)
    (st : TextState) (hv : Bool) :
    crlf_branch 180 delta_x delta_y f sw text output st hv
      = if delta_y > (8 / 10) * f then
          if output ++ text ≠ "" ∧ lastChar (output ++ text) ≠ some '\n' then
            ("", output ++ (text ++ "\n"),
              if hv then [(text ++ "\n", st)] else [])
          else (text, output, [])
        else if |delta_y| < f * (3 / 10) ∧ |delta_x| > sw * f * 15
            ∧ output ++ text ≠ "" ∧ lastChar (output ++ text) ≠ some ' ' then
          (text ++ " ", output, [])
        else (text, output, []) := rfl

/-- crlf_branch specialized to bucket 90. -/
theorem crlf_branch_90 (delta_x delta_y f sw : ℚ) (text output : String)
    (st : TextState) (hv : Bool) :
    crlf_branch 90 delta_x delta_y f sw text output st hv
      = if delta_x > (8 / 10) * f then
          if output ++ text ≠ "" ∧ lastChar (output ++ text) ≠ some '\n' then
            ("", output ++ (text ++ "\n"),
              if hv then [(text ++ "\n", st)] else [])
          else (text, output, [])
        else if |delta_x| < f * (3 / 10) ∧ |delta_y| > sw * f * 15
            ∧ output ++ text ≠ "" ∧ lastChar (output ++ text) ≠ some ' ' then
          (text ++ " ", output, [])
        else (text, output, []) := rfl

/-- crlf_branch specialized to bucket 270. -/
theorem crlf_branch_270 (delta_x delta_y f sw : ℚ) (text output : String)
    (st : TextState) (hv : Bool) :
    crlf_branch 270 delta_x delta_y f sw text output st hv
      = if delta_x < -(8 / 10) * f then
          if output ++ text ≠ "" ∧ lastChar (output ++ text) ≠ some '\n' then
            ("", output ++ (text ++ "\n"),
              if hv then [(text ++ "\n", st)] else [])
          else (text, output, [])
        else if |delta_x| < f * (3 / 10) ∧ |delta_y| > sw * f * 15
            ∧ output ++ text ≠ "" ∧ lastChar (output ++ text) ≠ some ' ' then
          (text ++ " ", output, [])
        else (text, output, []) := rfl

/-- crlf_space_check under an accepted orientation is the branch body
wrapped with the returned matrix baseline. -/
theorem crlf_space_check_accepted (text : String) (st : TextState)
    (cmtm_prev : Mat × Mat) (orientations : List Nat) (output : String)
    (tj hv : Bool)
    (hacc : orient (mult st.tm_matrix st.cm_matrix) ∈ orientations) :
    crlf_space_check text st cmtm_prev orientations output tj hv
      = .ok ((crlf_branch (orient (mult st.tm_matrix st.cm_matrix))
            ((mult st.tm_matrix st.cm_matrix).e - (mult cmtm_prev.2 cmtm_prev.1).e)
            ((mult st.tm_matrix st.cm_matrix).f - (mult cmtm_prev.2 cmtm_prev.1).f)
            (st.font_size * effScale (mult st.tm_matrix st.cm_matrix))
            st.space_width text output st hv).1,
          (crlf_branch (orient (mult st.tm_matrix st.cm_matrix))
            ((mult st.tm_matrix st.cm_matrix).e - (mult cmtm_prev.2 cmtm_prev.1).e)
            ((mult st.tm_matrix st.cm_matrix).f - (mult cmtm_prev.2 cmtm_prev.1).f)
            (st.font_size * effScale (mult st.tm_matrix st.cm_matrix))
            st.space_width text output st hv).2.1,
          st.cm_matrix, st.tm_matrix,
          (crlf_branch (orient (mult st.tm_matrix st.cm_matrix))
            ((mult st.tm_matrix st.cm_matrix).e - (mult cmtm_prev.2 cmtm_prev.1).e)
            ((mult st.tm_matrix st.cm_matrix).f - (mult cmtm_prev.2 cmtm_prev.1).f)
            (st.font_size * effScale (mult st.tm_matrix st.cm_matrix))
            st.space_width text output st hv).2.2) := by
  simp only [crlf_space_check]
  rw [if_neg (not_not_intro hacc)]

/-- C9: set_custom_rtl leaves each stored value unchanged when the
corresponding argument is omitted, stores an integer argument as given, a
single-character string argument as its code point, a string specials
argument as the list of its characters' code points, and returns the
resulting (min, max, specials) triple; in particular setting
(97, 122, [88, 89]) and then calling with all arguments omitted leaves all
three values unchanged. -/
theorem set_custom_rtl_spec :
    (∀ cfg : RtlConfig, set_custom_rtl .none .none .none cfg
      = .ok (cfg, (cfg.custom_rtl_min, cfg.custom_rtl_max, cfg.custom_rtl_special_chars)))
    ∧ (∀ (cfg : RtlConfig) (i : Int), set_custom_rtl (.int i) .none .none cfg
      = .ok (⟨i, cfg.custom_rtl_max, cfg.custom_rtl_special_chars⟩,
          (i, cfg.custom_rtl_max, cfg.custom_rtl_special_chars)))
    ∧ (∀ (cfg : RtlConfig) (c : Char), set_custom_rtl (.str (String.mk [c])) .none .none cfg
      = .ok (⟨(c.toNat : Int), cfg.custom_rtl_max, cfg.custom_rtl_special_chars⟩,
          ((c.toNat : Int), cfg.custom_rtl_max, cfg.custom_rtl_special_chars)))
    ∧ (∀ (cfg : RtlConfig) (j : Int), set_custom_rtl .none (.int j) .none cfg
      = .ok (⟨cfg.custom_rtl_min, j, cfg.custom_rtl_special_chars⟩,
          (cfg.custom_rtl_min, j, cfg.custom_rtl_special_chars)))
    ∧ (∀ (cfg : RtlConfig) (c : Char), set_custom_rtl .none (.str (String.mk [c])) .none cfg
      = .ok (⟨cfg.custom_rtl_min, (c.toNat : Int), cfg.custom_rtl_special_chars⟩,
          (cfg.custom_rtl_min, (c.toNat : Int), cfg.custom_rtl_special_chars)))
    ∧ (∀ (cfg : RtlConfig) (l : List Int), set_custom_rtl .none .none (.ints l) cfg
      = .ok (⟨cfg.custom_rtl_min, cfg.custom_rtl_max, l⟩,
          (cfg.custom_rtl_min, cfg.custom_rtl_max, l)))
    ∧ (∀ (cfg : RtlConfig) (s : String), set_custom_rtl .none .none (.str s) cfg
      = .ok (⟨cfg.custom_rtl_min, cfg.custom_rtl_max, s.data.map (fun c => (c.toNat : Int))⟩,
          (cfg.custom_rtl_min, cfg.custom_rtl_max, s.data.map (fun c => (c.toNat : Int)))))
    ∧ (set_custom_rtl (.int 97) (.int 122) (.ints [88, 89]) initRtlConfig
        = .ok (⟨97, 122, [88, 89]⟩, (97, 122, [88, 89]))
      ∧ set_custom_rtl .none .none .none ⟨97, 122, [88, 89]⟩
        = .ok (⟨97, 122, [88, 89]⟩, (97, 122, [88, 89]))) :=
  ⟨fun _ => rfl, fun _ _ => rfl, fun _ _ => rfl, fun _ _ => rfl, fun _ _ => rfl,
    fun _ _ => rfl, fun _ _ => rfl, rfl, rfl⟩

/-- C10: handle_tj inspects only the first element of the operand list:
the result is the same for any two operand lists sharing a head, and an
empty operand list returns the pending text unchanged with no side
effects. -/
theorem handle_tj_first_operand_only :
    (∀ (dec : Decoder) (cfg : RtlConfig) (text : String) (op : Operand)
        (rest₁ rest₂ : List Operand) (st : TextState) (orientations : List Nat)
        (output : String) (tj hv : Bool),
      handle_tj dec cfg text (op :: rest₁) st orientations output tj hv
        = handle_tj dec cfg text (op :: rest₂) st orientations output tj hv)
    ∧ (∀ (dec : Decoder) (cfg : RtlConfig) (text : String) (st : TextState)
        (orientations : List Nat) (output : String) (tj hv : Bool),
      handle_tj dec cfg text [] st orientations output tj hv
        = .ok (text, output, st, [])) :=
  ⟨fun _ _ _ _ _ _ _ _ _ _ _ => rfl, fun _ _ _ _ _ _ _ _ => rfl⟩

/-- C2: processing a byte operand that decodes to "A", HEBREW LETTER ALEF,
"B", starting left-to-right with empty pending text: "A" is flushed (with
visitor notification) when the flag flips to right-to-left on the Hebrew
character, the Hebrew character forms a single-character right-to-left
fragment flushed when the flag flips back on "B", the returned pending
text is "B" and the final direction flag is left-to-right. -/
theorem handle_tj_bidi_trace :
    handle_tj dec0 initRtlConfig "" [.bytes [0x41, 0xD0, 0x42]] stT [0] "out" false true
      = .ok ("B", "out" ++ "A" ++ String.mk [Char.ofNat 0x05D0], stT,
          [("A", { stT with rtl_dir := true }),
            (String.mk [Char.ofNat 0x05D0], stT)]) := by
  simp only [handle_tj, orient_stT]
  decide

/-- C6: whenever the orientation of the composed current matrix is not in
the accepted set, handle_tj does not raise, returns the pending text
unchanged, appends nothing to output, makes no visitor call and leaves the
text state unmodified — the operand is silently skipped. -/
theorem handle_tj_skips_unaccepted (dec : Decoder) (cfg : RtlConfig)
    (text : String) (operands : List Operand) (st : TextState)
    (orientations : List Nat) (output : String) (tj hv : Bool)
    (h : orient (mult st.tm_matrix st.cm_matrix) ∉ orientations) :
    handle_tj dec cfg text operands st orientations output tj hv
      = .ok (text, output, st, []) := by
  unfold handle_tj
  cases operands with
  | nil => rfl
  | cons op rest => simp [h]

/-- C6 witness: concrete skip with an empty accepted set. -/
theorem handle_tj_skips_unaccepted_witness :
    orient (mult stT.tm_matrix stT.cm_matrix) ∉ ([] : List Nat)
    ∧ handle_tj dec0 initRtlConfig "T" [.bytes [0x41]] stT [] "out" false true
      = .ok ("T", "out", stT, []) :=
  ⟨List.not_mem_nil _,
    handle_tj_skips_unaccepted dec0 initRtlConfig "T" [.bytes [0x41]] stT [] "out"
      false true (List.not_mem_nil _)⟩

/-- C1 counterexample: under a character map that substitutes A by B, a
native string operand "A" is NOT processed like the byte operand obtained
by encoding it through the legacy single-byte document encoding: the byte
route applies the substitution table (and bidi classification), the native
string route does not. -/
theorem handle_tj_native_str_cex :
    handle_tj dec0 initRtlConfig "" [.str "A"] stS [0] "" false false
      ≠ handle_tj dec0 initRtlConfig "" [.bytes (encode_pdfdocencoding "A")] stS [0] "" false false := by
  have h : orient (mult stS.tm_matrix stS.cm_matrix) = 0 := orient_stT
  simp only [handle_tj, h, encode_pdfdocencoding]
  decide

/-- C1 amended: a native (already-decoded) string operand is appended
unchanged to the end of pending text, with no decode, substitution-table
application, bidi classification, output append, visitor call or text
state change; only raw-bytes operands go through the decode pipeline. -/
theorem handle_tj_native_str_append (dec : Decoder) (cfg : RtlConfig)
    (text s : String) (rest : List Operand) (st : TextState)
    (orientations : List Nat) (output : String) (tj hv : Bool)
    (hor : orient (mult st.tm_matrix st.cm_matrix) ∈ orientations) :
    handle_tj dec cfg text (.str s :: rest) st orientations output tj hv
      = .ok (text ++ s, output, st, []) := by
  unfold handle_tj
  simp [hor]

/-- C1 amended witness: the native string "A" is appended verbatim even
though the substitution table maps A to B. -/
theorem handle_tj_native_str_append_witness :
    orient (mult stS.tm_matrix stS.cm_matrix) ∈ [0]
    ∧ handle_tj dec0 initRtlConfig "x" [.str "A"] stS [0] "y" false true
      = .ok ("x" ++ "A", "y", stS, []) :=
  ⟨by rw [show orient (mult stS.tm_matrix stS.cm_matrix) = 0 from orient_stT]; simp,
    handle_tj_native_str_append dec0 initRtlConfig "x" "A" [] stS [0] "y" false true
      (by rw [show orient (mult stS.tm_matrix stS.cm_matrix) = 0 from orient_stT]; simp)⟩

/-- C7: for a byte operand under a named-encoding character map, a failed
primary decode is retried under the paired alternate (utf-16-be when the
primary is charmap, charmap otherwise); the call succeeds whenever the
alternate decode succeeds — behaving as if the decode had directly
yielded the alternate's result — and only failure of both is an error. -/
theorem handle_tj_decode_fallback (dec : Decoder) (cfg : RtlConfig)
    (text : String) (tt : List Nat) (st : TextState) (orientations : List Nat)
    (output : String) (tj hv : Bool) (enc : String)
    (henc : st.cmap.encoding = .named enc)
    (hor : orient (mult st.tm_matrix st.cm_matrix) ∈ orientations) :
    (∀ s : String, dec enc tt = none → dec (altEncoding enc) tt = some s →
      handle_tj dec cfg text [.bytes tt] st orientations output tj hv
          = handle_tj (fun _ _ => some s) cfg text [.bytes tt] st orientations output tj hv
        ∧ ∃ r, handle_tj dec cfg text [.bytes tt] st orientations output tj hv = .ok r)
    ∧ (dec enc tt = none → dec (altEncoding enc) tt = none →
      handle_tj dec cfg text [.bytes tt] st orientations output tj hv = .error ()) := by
  unfold handle_tj namedDecode
  simp only [henc, hor, if_pos]
  constructor
  · intro s h1 h2
    simp [h1, h2]
  · intro h1 h2
    simp [h1, h2]

/-- C7 witness: bytes invalid under the primary charmap codec but valid
under the paired utf-16-be alternate decode successfully via fallback. -/
theorem handle_tj_decode_fallback_witness :
    stN.cmap.encoding = .named "charmap"
    ∧ decBE "charmap" [0, 65] = none
    ∧ decBE (altEncoding "charmap") [0, 65] = some "A"
    ∧ handle_tj decBE initRtlConfig "" [.bytes [0, 65]] stN [0] "" false false
      = handle_tj (fun _ _ => some "A") initRtlConfig "" [.bytes [0, 65]] stN [0] "" false false :=
  ⟨rfl, rfl, rfl,
    ((handle_tj_decode_fallback decBE initRtlConfig "" [0, 65] stN [0] "" false false
      "charmap" rfl
      (by rw [show orient (mult stN.tm_matrix stN.cm_matrix) = 0 from orient_stT]; simp)).1
      "A" rfl rfl).1⟩

/-- C5: crlf_space_check fails exactly when the orientation of the
composed current matrix is not in the accepted set, and when it fails the
pending text and output are unchanged and no visitor call has been made
(the error payload records the buffers and visitor calls at the raise). -/
theorem crlf_orientation_failure (text : String) (st : TextState)
    (cmtm_prev : Mat × Mat) (orientations : List Nat) (output : String)
    (tj hv : Bool) :
    (crlf_space_check text st cmtm_prev orientations output tj hv
        = .error (text, output, [])
      ↔ orient (mult st.tm_matrix st.cm_matrix) ∉ orientations)
    ∧ ((∃ r, crlf_space_check text st cmtm_prev orientations output tj hv = .ok r)
      ↔ orient (mult st.tm_matrix st.cm_matrix) ∈ orientations) := by
  unfold crlf_space_check
  by_cases h : orient (mult st.tm_matrix st.cm_matrix) ∈ orientations
  · simp [h]
  · simp [h]

/-- C3: under the 0-degree orientation bucket with that bucket accepted,
an advance-axis delta more negative than -(8/10)*f, with non-empty
pending/output not ending in a newline, flushes pending text plus a
trailing newline to output, delivers the flushed text and a state
snapshot to the visitor when one is supplied, and empties pending
text. -/
theorem crlf_flush_at_0 (text : String) (st : TextState) (cmtm_prev : Mat × Mat)
    (orientations : List Nat) (output : String) (tj hv : Bool)
    (hor0 : orient (mult st.tm_matrix st.cm_matrix) = 0)
    (hacc : (0 : Nat) ∈ orientations)
    (hdy : (mult st.tm_matrix st.cm_matrix).f - (mult cmtm_prev.2 cmtm_prev.1).f
      < -(8 / 10) * (st.font_size * effScale (mult st.tm_matrix st.cm_matrix)))
    (hne : output ++ text ≠ "")
    (hnl : lastChar (output ++ text) ≠ some '\n') :
    crlf_space_check text st cmtm_prev orientations output tj hv
      = .ok ("", output ++ (text ++ "\n"), st.cm_matrix, st.tm_matrix,
          if hv then [(text ++ "\n", st)] else []) := by
  have hacc2 : orient (mult st.tm_matrix st.cm_matrix) ∈ orientations := by
    rw [hor0]; exact hacc
  have hbuf : output ++ text ≠ "" ∧ lastChar (output ++ text) ≠ some '\n' :=
    ⟨hne, hnl⟩
  rw [crlf_space_check_accepted text st cmtm_prev orientations output tj hv hacc2,
    hor0, crlf_branch_0, if_pos hdy, if_pos hbuf]

/-- C3 witness: a concrete downward jump of 100 units at font size 12
flushes the pending text with a newline and a visitor call. -/
theorem crlf_flush_at_0_witness :
    orient (mult stT.tm_matrix stT.cm_matrix) = 0
    ∧ (0 : Nat) ∈ [0]
    ∧ (mult stT.tm_matrix stT.cm_matrix).f - (mult (transMat 0 100) idMat).f
      < -(8 / 10) * (stT.font_size * effScale (mult stT.tm_matrix stT.cm_matrix))
    ∧ ("X" ++ "Y" : String) ≠ ""
    ∧ lastChar ("X" ++ "Y") ≠ some '\n'
    ∧ crlf_space_check "Y" stT (idMat, transMat 0 100) [0] "X" false true
      = .ok ("", "X" ++ ("Y" ++ "\n"), stT.cm_matrix, stT.tm_matrix,
          if true then [("Y" ++ "\n", stT)] else []) := by
  have h3 : (mult stT.tm_matrix stT.cm_matrix).f - (mult (transMat 0 100) idMat).f
      < -(8 / 10) * (stT.font_size * effScale (mult stT.tm_matrix stT.cm_matrix)) := by
    rw [show mult stT.tm_matrix stT.cm_matrix = mult idMat idMat from rfl, effScale_id]
    simp only [mult, idMat, transMat, stT]
    norm_num
  refine ⟨orient_stT, by simp, h3, by decide, by decide, ?_⟩
  exact crlf_flush_at_0 "Y" stT (idMat, transMat 0 100) [0] "X" false true
    orient_stT (by simp) h3 (by decide) (by decide)

/-- orient only ever produces the four quadrant buckets. -/
theorem orient_cases (m : Mat) :
    orient m = 0 ∨ orient m = 180 ∨ orient m = 90 ∨ orient m = 270 := by
  unfold orient
  split_ifs <;> simp

/-- flushDelta at bucket 0 is the downward test. -/
theorem flushDelta_eq_0 (dx dy f : ℚ) :
    flushDelta 0 dx dy f ↔ dy < -(8 / 10) * f := by
  unfold flushDelta; norm_num

/-- flushDelta at bucket 180 is the upward test. -/
theorem flushDelta_eq_180 (dx dy f : ℚ) :
    flushDelta 180 dx dy f ↔ dy > (8 / 10) * f := by
  unfold flushDelta; norm_num

/-- flushDelta at bucket 90 is the rightward test. -/
theorem flushDelta_eq_90 (dx dy f : ℚ) :
    flushDelta 90 dx dy f ↔ dx > (8 / 10) * f := by
  unfold flushDelta; norm_num

/-- flushDelta at bucket 270 is the leftward test. -/
theorem flushDelta_eq_270 (dx dy f : ℚ) :
    flushDelta 270 dx dy f ↔ dx < -(8 / 10) * f := by
  unfold flushDelta; norm_num

/-- spaceCondition at bucket 0 spelt out. -/
theorem spaceCondition_eq_0 (dx dy f sw : ℚ) (buf : String) :
    spaceCondition 0 dx dy f sw buf ↔
      (|dy| < f * (3 / 10) ∧ |dx| > sw * f * 15 ∧ buf ≠ "" ∧ lastChar buf ≠ some ' ') := by
  unfold spaceCondition advanceAxisDelta crossAxisDelta; norm_num

/-- spaceCondition at bucket 180 spelt out. -/
theorem spaceCondition_eq_180 (dx dy f sw : ℚ) (buf : String) :
    spaceCondition 180 dx dy f sw buf ↔
      (|dy| < f * (3 / 10) ∧ |dx| > sw * f * 15 ∧ buf ≠ "" ∧ lastChar buf ≠ some ' ') := by
  unfold spaceCondition advanceAxisDelta crossAxisDelta; norm_num

/-- spaceCondition at bucket 90 spelt out. -/
theorem spaceCondition_eq_90 (dx dy f sw : ℚ) (buf : String) :
    spaceCondition 90 dx dy f sw buf ↔
      (|dx| < f * (3 / 10) ∧ |dy| > sw * f * 15 ∧ buf ≠ "" ∧ lastChar buf ≠ some ' ') := by
  unfold spaceCondition advanceAxisDelta crossAxisDelta; norm_num

/-- spaceCondition at bucket 270 spelt out. -/
theorem spaceCondition_eq_270 (dx dy f sw : ℚ) (buf : String) :
    spaceCondition 270 dx dy f sw buf ↔
      (|dx| < f * (3 / 10) ∧ |dy| > sw * f * 15 ∧ buf ≠ "" ∧ lastChar buf ≠ some ' ') := by
  unfold spaceCondition advanceAxisDelta crossAxisDelta; norm_num

/-- C4: under an accepted orientation, a near-zero advance-axis delta
combined with a cross-axis jump larger than 15*space_width*f, with the
last buffer character not a space, appends exactly one space to pending
text and leaves output unchanged; and in every case that neither flushes
nor satisfies the space test, both buffers are unchanged. -/
theorem crlf_space_insertion (text : String) (st : TextState)
    (cmtm_prev : Mat × Mat) (orientations : List Nat) (output : String)
    (tj hv : Bool) (m m_prev : Mat) (dx dy f : ℚ)
    (hm : m = mult st.tm_matrix st.cm_matrix)
    (hmp : m_prev = mult cmtm_prev.2 cmtm_prev.1)
    (hdx : dx = m.e - m_prev.e) (hdy : dy = m.f - m_prev.f)
    (hf : f = st.font_size * effScale m)
    (hor : orient m ∈ orientations) :
    (spaceCondition (orient m) dx dy f st.space_width (output ++ text) →
      crlf_space_check text st cmtm_prev orientations output tj hv
        = .ok (text ++ " ", output, st.cm_matrix, st.tm_matrix, []))
    ∧ (¬(flushDelta (orient m) dx dy f ∧ output ++ text ≠ ""
          ∧ lastChar (output ++ text) ≠ some '\n')
      → ¬(¬flushDelta (orient m) dx dy f
          ∧ spaceCondition (orient m) dx dy f st.space_width (output ++ text))
      → crlf_space_check text st cmtm_prev orientations output tj hv
        = .ok (text, output, st.cm_matrix, st.tm_matrix, [])) := by
  subst hm
  subst hmp
  subst hdx
  subst hdy
  subst hf
  constructor
  · intro hsc
    rcases orient_cases (mult st.tm_matrix st.cm_matrix) with h|h|h|h
    · have hacc2 : orient (mult st.tm_matrix st.cm_matrix) ∈ orientations := hor
      rw [h, spaceCondition_eq_0] at hsc
      obtain ⟨h1, h2, h3, h4⟩ := hsc
      have habs := abs_lt.mp h1
      rw [crlf_space_check_accepted text st cmtm_prev orientations output tj hv hacc2,
        h, crlf_branch_0]
      split_ifs with hA hB hC hD
      · rcases habs with ⟨hl, hr⟩; linarith
      · rcases habs with ⟨hl, hr⟩; linarith
      · rcases habs with ⟨hl, hr⟩; linarith
      · rfl
      · exact (hD ⟨h1, h2, h3, h4⟩).elim
    · have hacc2 : orient (mult st.tm_matrix st.cm_matrix) ∈ orientations := hor
      rw [h, spaceCondition_eq_180] at hsc
      obtain ⟨h1, h2, h3, h4⟩ := hsc
      have habs := abs_lt.mp h1
      rw [crlf_space_check_accepted text st cmtm_prev orientations output tj hv hacc2,
        h, crlf_branch_180]
      split_ifs with hA hB hC hD
      · rcases habs with ⟨hl, hr⟩; linarith
      · rcases habs with ⟨hl, hr⟩; linarith
      · rcases habs with ⟨hl, hr⟩; linarith
      · rfl
      · exact (hD ⟨h1, h2, h3, h4⟩).elim
    · have hacc2 : orient (mult st.tm_matrix st.cm_matrix) ∈ orientations := hor
      rw [h, spaceCondition_eq_90] at hsc
      obtain ⟨h1, h2, h3, h4⟩ := hsc
      have habs := abs_lt.mp h1
      rw [crlf_space_check_accepted text st cmtm_prev orientations output tj hv hacc2,
        h, crlf_branch_90]
      split_ifs with hA hB hC hD
      · rcases habs with ⟨hl, hr⟩; linarith
      · rcases habs with ⟨hl, hr⟩; linarith
      · rcases habs with ⟨hl, hr⟩; linarith
      · rfl
      · exact (hD ⟨h1, h2, h3, h4⟩).elim
    · have hacc2 : orient (mult st.tm_matrix st.cm_matrix) ∈ orientations := hor
      rw [h, spaceCondition_eq_270] at hsc
      obtain ⟨h1, h2, h3, h4⟩ := hsc
      have habs := abs_lt.mp h1
      rw [crlf_space_check_accepted text st cmtm_prev orientations output tj hv hacc2,
        h, crlf_branch_270]
      split_ifs with hA hB hC hD
      · rcases habs with ⟨hl, hr⟩; linarith
      · rcases habs with ⟨hl, hr⟩; linarith
      · rcases habs with ⟨hl, hr⟩; linarith
      · rfl
      · exact (hD ⟨h1, h2, h3, h4⟩).elim
  · intro hnb hns
    rcases orient_cases (mult st.tm_matrix st.cm_matrix) with h|h|h|h
    · have hacc2 : orient (mult st.tm_matrix st.cm_matrix) ∈ orientations := hor
      rw [h, flushDelta_eq_0] at hnb
      rw [h, flushDelta_eq_0, spaceCondition_eq_0] at hns
      rw [crlf_space_check_accepted text st cmtm_prev orientations output tj hv hacc2,
        h, crlf_branch_0]
      split_ifs with hA hB hC hD
      · exact (hnb ⟨hA, hB⟩).elim
      · exact (hnb ⟨hA, hB⟩).elim
      · rfl
      · exact (hns ⟨hA, hD⟩).elim
      · rfl
    · have hacc2 : orient (mult st.tm_matrix st.cm_matrix) ∈ orientations := hor
      rw [h, flushDelta_eq_180] at hnb
      rw [h, flushDelta_eq_180, spaceCondition_eq_180] at hns
      rw [crlf_space_check_accepted text st cmtm_prev orientations output tj hv hacc2,
        h, crlf_branch_180]
      split_ifs with hA hB hC hD
      · exact (hnb ⟨hA, hB⟩).elim
      · exact (hnb ⟨hA, hB⟩).elim
      · rfl
      · exact (hns ⟨hA, hD⟩).elim
      · rfl
    · have hacc2 : orient (mult st.tm_matrix st.cm_matrix) ∈ orientations := hor
      rw [h, flushDelta_eq_90] at hnb
      rw [h, flushDelta_eq_90, spaceCondition_eq_90] at hns
      rw [crlf_space_check_accepted text st cmtm_prev orientations output tj hv hacc2,
        h, crlf_branch_90]
      split_ifs with hA hB hC hD
      · exact (hnb ⟨hA, hB⟩).elim
      · exact (hnb ⟨hA, hB⟩).elim
      · rfl
      · exact (hns ⟨hA, hD⟩).elim
      · rfl
    · have hacc2 : orient (mult st.tm_matrix st.cm_matrix) ∈ orientations := hor
      rw [h, flushDelta_eq_270] at hnb
      rw [h, flushDelta_eq_270, spaceCondition_eq_270] at hns
      rw [crlf_space_check_accepted text st cmtm_prev orientations output tj hv hacc2,
        h, crlf_branch_270]
      split_ifs with hA hB hC hD
      · exact (hnb ⟨hA, hB⟩).elim
      · exact (hnb ⟨hA, hB⟩).elim
      · rfl
      · exact (hns ⟨hA, hD⟩).elim
      · rfl

/-- C4 witness: a lateral jump of 100 units with zero vertical movement at
font size 12 and space width 1/2 inserts exactly one space. -/
theorem crlf_space_insertion_witness :
    spaceCondition (orient (mult stT.tm_matrix stT.cm_matrix))
        ((mult stT.tm_matrix stT.cm_matrix).e - (mult (transMat (-100) 0) idMat).e)
        ((mult stT.tm_matrix stT.cm_matrix).f - (mult (transMat (-100) 0) idMat).f)
        (stT.font_size * effScale (mult stT.tm_matrix stT.cm_matrix))
        stT.space_width ("X" ++ "Y")
    ∧ crlf_space_check "Y" stT (idMat, transMat (-100) 0) [0] "X" false true
      = .ok ("Y" ++ " ", "X", stT.cm_matrix, stT.tm_matrix, []) := by
  have hsc : spaceCondition (orient (mult stT.tm_matrix stT.cm_matrix))
      ((mult stT.tm_matrix stT.cm_matrix).e - (mult (transMat (-100) 0) idMat).e)
      ((mult stT.tm_matrix stT.cm_matrix).f - (mult (transMat (-100) 0) idMat).f)
      (stT.font_size * effScale (mult stT.tm_matrix stT.cm_matrix))
      stT.space_width ("X" ++ "Y") := by
    rw [orient_stT, spaceCondition_eq_0]
    refine ⟨?_, ?_, by decide, by decide⟩
    · rw [show mult stT.tm_matrix stT.cm_matrix = mult idMat idMat from rfl, effScale_id]
      simp only [mult, idMat, transMat, stT]
      norm_num
    · rw [show mult stT.tm_matrix stT.cm_matrix = mult idMat idMat from rfl, effScale_id]
      simp only [mult, idMat, transMat, stT, TextState.space_width]
      norm_num
  exact ⟨hsc,
    (crlf_space_insertion "Y" stT (idMat, transMat (-100) 0) [0] "X" false true
      _ _ _ _ _ rfl rfl rfl rfl rfl (by rw [orient_stT]; simp)).1 hsc⟩

/-- C8 counterexample: with a negative font size and identical previous
and current composed matrices (both position deltas zero), an accepted
0-degree orientation still flushes: output gains a newline and a visitor
call is made, so the buffers are NOT left unchanged. -/
theorem crlf_zero_delta_cex :
    crlf_space_check "" stNeg (idMat, idMat) [0] "A" false true
      = .ok ("", "A" ++ ("" ++ "\n"), stNeg.cm_matrix, stNeg.tm_matrix,
          [("" ++ "\n", stNeg)])
    ∧ ("A" ++ ("" ++ "\n") : String) ≠ "A" := by
  constructor
  · have hacc2 : orient (mult stNeg.tm_matrix stNeg.cm_matrix) ∈ [0] := by
      rw [show orient (mult stNeg.tm_matrix stNeg.cm_matrix) = 0 from orient_stT]
      simp
    rw [crlf_space_check_accepted "" stNeg (idMat, idMat) [0] "A" false true hacc2]
    rw [show orient (mult stNeg.tm_matrix stNeg.cm_matrix) = 0 from orient_stT]
    rw [crlf_branch_0]
    have hflush : (mult stNeg.tm_matrix stNeg.cm_matrix).f
          - (mult (idMat, idMat).2 (idMat, idMat).1).f
        < -(8 / 10) * (stNeg.font_size * effScale (mult stNeg.tm_matrix stNeg.cm_matrix)) := by
      rw [show mult stNeg.tm_matrix stNeg.cm_matrix = mult idMat idMat from rfl, effScale_id]
      simp only [mult, idMat, stNeg, stT]
      norm_num
    have hbuf : "A" ++ "" ≠ "" ∧ lastChar ("A" ++ "") ≠ some '\n' := by decide
    rw [if_pos hflush, if_pos hbuf]
    rfl
  · decide

/-- C8 amended: for nonnegative font size and space width, equal previous
and current composed matrices (zero deltas) under an accepted orientation
never flush nor insert a space: pending text and output are returned
unchanged with no visitor call, in every orientation bucket and also for
empty buffers. -/
theorem crlf_zero_delta_noop (text : String) (st : TextState)
    (cmtm_prev : Mat × Mat) (orientations : List Nat) (output : String)
    (tj hv : Bool)
    (hfs : 0 ≤ st.font_size) (hsw : 0 ≤ st._space_width)
    (heq : mult cmtm_prev.2 cmtm_prev.1 = mult st.tm_matrix st.cm_matrix)
    (hor : orient (mult st.tm_matrix st.cm_matrix) ∈ orientations) :
    crlf_space_check text st cmtm_prev orientations output tj hv
      = .ok (text, output, st.cm_matrix, st.tm_matrix, []) := by
  have hk : (0:ℚ) ≤ effScale (mult st.tm_matrix st.cm_matrix) := by
    rw [effScale]; exact Rat.sqrt_nonneg _
  have hf0 : (0:ℚ) ≤ st.font_size * effScale (mult st.tm_matrix st.cm_matrix) :=
    mul_nonneg hfs hk
  have hsw0 : (0:ℚ) ≤ st.space_width := by
    rw [TextState.space_width]
    exact div_nonneg hsw (by norm_num)
  have hprod : (0:ℚ) ≤ st.space_width
      * (st.font_size * effScale (mult st.tm_matrix st.cm_matrix)) * 15 :=
    mul_nonneg (mul_nonneg hsw0 hf0) (by norm_num)
  rw [crlf_space_check_accepted text st cmtm_prev orientations output tj hv hor,
    heq, sub_self, sub_self]
  rcases orient_cases (mult st.tm_matrix st.cm_matrix) with h|h|h|h
  · rw [h, crlf_branch_0]
    rw [if_neg (by intro hcon; nlinarith), if_neg (by
      intro hcon
      rcases hcon with ⟨c1, c2, _⟩
      rw [abs_zero] at c2
      linarith)]
  · rw [h, crlf_branch_180]
    rw [if_neg (by intro hcon; nlinarith), if_neg (by
      intro hcon
      rcases hcon with ⟨c1, c2, _⟩
      rw [abs_zero] at c2
      linarith)]
  · rw [h, crlf_branch_90]
    rw [if_neg (by intro hcon; nlinarith), if_neg (by
      intro hcon
      rcases hcon with ⟨c1, c2, _⟩
      rw [abs_zero] at c2
      linarith)]
  · rw [h, crlf_branch_270]
    rw [if_neg (by intro hcon; nlinarith), if_neg (by
      intro hcon
      rcases hcon with ⟨c1, c2, _⟩
      rw [abs_zero] at c2
      linarith)]

/-- C8 amended witness: zero deltas at font size 12 leave the buffers
untouched. -/
theorem crlf_zero_delta_noop_witness :
    (0:ℚ) ≤ stT.font_size ∧ (0:ℚ) ≤ stT._space_width
    ∧ mult idMat idMat = mult stT.tm_matrix stT.cm_matrix
    ∧ crlf_space_check "P" stT (idMat, idMat) [0] "Q" false true
      = .ok ("P", "Q", stT.cm_matrix, stT.tm_matrix, []) :=
  ⟨by norm_num [stT], by norm_num [stT], rfl,
    crlf_zero_delta_noop "P" stT (idMat, idMat) [0] "Q" false true
      (by norm_num [stT]) (by norm_num [stT]) rfl
      (by rw [orient_stT]; simp)⟩

/-- C5 witness: with an empty accepted set the heuristic fails, returning
the untouched buffers and no visitor call. -/
theorem crlf_orientation_failure_witness :
    crlf_space_check "P" stT (idMat, idMat) [] "Q" false true
      = .error ("P", "Q", []) :=
  (crlf_orientation_failure "P" stT (idMat, idMat) [] "Q" false true).1.mpr
    (List.not_mem_nil _)
